import Mathlib

/-!
Shallow embedding of `lib/cursor.js` (ansi.js): a stateful cursor controller
that encodes terminal-control operations as ANSI escape sequences written to
an underlying stream, with an enable gate and a buffering/flush protocol.

The code table (`lib/consts.js`) is not part of the sources; per the spec it
is an opaque, externally supplied constant table, so all definitions are
parameterized by a `Consts` record holding the control-sequence introducer
and the per-operation code fragments.  Likewise the stream/event machinery
(`lib/newline.js`, the `emit` notification channel) is modelled from the
spec: stream writes, `data` events, `error` events and the newline counter
are recorded as observable histories inside the controller state.
-/

namespace AnsiCursor

/-- A JavaScript numeric argument as observed by `toAxis` and `move`:
`undefined`, `NaN`, the two infinities, or a finite value (modelled as a
rational, which is exact for every finite float). -/
inductive JsNum where
  | undef
  | nan
  | inf
  | ninf
  | num (q : ℚ)
deriving DecidableEq, Repr

/-- Function `toAxis` from `lib/cursor.js`:
`isUndefined(val) || isNaN(val) || !isFinite(val) ? 1 : Math.floor(val)`. -/
def toAxis : JsNum → ℤ
  | .undef => 1
  | .nan => 1
  | .inf => 1
  | .ninf => 1
  | .num q => ⌊q⌋

/-- JavaScript unary minus on a `JsNum` (`-undefined` is `NaN`). -/
def JsNum.neg : JsNum → JsNum
  | .undef => .nan
  | .nan => .nan
  | .inf => .ninf
  | .ninf => .inf
  | .num q => .num (-q)

/-- JavaScript comparison `v < 0` (false on `undefined`/`NaN`). -/
def JsNum.lt0 : JsNum → Bool
  | .ninf => true
  | .num q => q < 0
  | _ => false

/-- JavaScript comparison `v > 0` (false on `undefined`/`NaN`). -/
def JsNum.gt0 : JsNum → Bool
  | .inf => true
  | .num q => q > 0
  | _ => false

/-- Function `ucFirst` from `lib/cursor.js`:
`str.charAt(0).toUpperCase() + str.substring(1)` (ASCII upper-casing). -/
def ucFirst (s : String) : String :=
  match s.data with
  | [] => ""
  | c :: rest => String.mk (c.toUpper :: rest)

/-- Modelled from the spec: `lib/consts.js` is not among the sources; the
spec treats it as an opaque table of externally supplied constants
("implementer must port the table verbatim").  `csi` is the fixed
control-sequence introducer that cursor.js calls `prefix`; `movements` and
`actions` are the two name-to-code tables the generated prototype methods
are built from; `moveUp`/`moveDown`/`forward`/`backward` are the code
fragments of the four generated movement methods that `move` invokes;
`codes` supplies the four full save/restore sequences; `beep` is the full
beep sequence. -/
structure Consts where
  csi : String
  movements : List (String × String)
  actions : List (String × String)
  moveUp : String
  moveDown : String
  forward : String
  backward : String
  beep : String
  saveCursor : String
  savePosition : String
  restoreCursor : String
  restorePosition : String
deriving DecidableEq, Repr

/-- The possible `stream` arguments of the constructor, as far as the
validation `typeof stream !== 'object' || typeof stream.write !== 'function'`
observes them: a non-object value, or an object that may or may not expose
a `write` function and whose `isTTY` property is a boolean or `undefined`. -/
inductive StreamArg where
  | notObject
  | object (hasWrite : Bool) (isTTY : Option Bool)
deriving DecidableEq, Repr

/-- Controller state (`Cursor` in `lib/cursor.js`).  `streamWrites` records
each call to the underlying `stream.write` with its argument list;
`dataEvents` and `errorEvents` record the `data` / `error` notifications
emitted; the remaining fields are the instance properties set by the
constructor. -/
structure Cursor where
  stream : StreamArg
  streamWrites : List (List String)
  dataEvents : List String
  errorEvents : List String
  enabled : Bool
  buffering : Bool
  _buffer : List (List String)
  bold : Bool
  italic : Bool
  inverse : Bool
  underline : Bool
  newlines : Nat
deriving DecidableEq, Repr

/-- Number of newline characters in a string.  Modelled from the spec: the
`lib/newline.js` collaborator (not among the sources) raises one `newline`
notification per newline written, and the constructor's subscription
increments `newlines` once per notification. -/
def countNewlines (s : String) : Nat :=
  s.data.countP (fun c => c = '\n')

/-- Method `Cursor.prototype.write`: when `buffering`, the exact argument list is
queued; otherwise the arguments go to `stream.write` and a `data` event
carrying the first argument is emitted (and the newline notifier fires per
newline in the written data).  Returns `this`. -/
def Cursor.write (c : Cursor) (args : List String) : Cursor :=
  if c.buffering then
    { c with _buffer := c._buffer ++ [args] }
  else
    { c with
      streamWrites := c.streamWrites ++ [args]
      dataEvents := c.dataEvents ++ [args.headD ""]
      newlines := c.newlines + countNewlines (args.headD "") }

/-- Method `Cursor.prototype._write`: calls `write(data)` only when `enabled`;
otherwise a no-op.  Returns `this`. -/
def Cursor._write (c : Cursor) (data : String) : Cursor :=
  if c.enabled then c.write [data] else c

/-- Method `Cursor.prototype.buffer`: sets `buffering = true`. -/
def Cursor.buffer (c : Cursor) : Cursor :=
  { c with buffering := true }

/-- Result of `Cursor.prototype.flush`: whether the `Unexpected args length`
error was thrown, and the controller state at return (on success) or at the
moment of the throw (on failure). -/
structure FlushResult where
  threw : Bool
  state : Cursor
deriving DecidableEq, Repr

/-- Method `Cursor.prototype.flush`: first sets `buffering = false`; then maps the
queue, throwing on the first entry whose argument list does not have exactly
one component (at which point the queue has not been cleared); on success
clears the queue and performs one ordinary `write` of the concatenation. -/
def Cursor.flush (c : Cursor) : FlushResult :=
  let c1 : Cursor := { c with buffering := false }
  if c1._buffer.all (fun args => args.length == 1) then
    { threw := false
      state := Cursor.write { c1 with _buffer := [] }
        [String.join (c1._buffer.map (fun args => args.headD ""))] }
  else
    { threw := true, state := c1 }

/-- A generated movement method (one per entry of the `movements` table):
with no arguments it emits `prefix + code`, otherwise it emits
`prefix + args.map(toAxis).join(';') + code`, all through `_write`. -/
def movementMethod (csi code : String) (args : List JsNum) (c : Cursor) : Cursor :=
  let c' := if args.length > 0 then
      String.intercalate ";" (args.map (fun v => toString (toAxis v))) ++ code
    else code
  c._write (csi ++ c')

/-- A generated action method (one per entry of the `actions` table):
emits `prefix + code` through `_write`. -/
def actionMethod (csi code : String) (c : Cursor) : Cursor :=
  c._write (csi ++ code)

/-- Method `Cursor.prototype.enable`. -/
def Cursor.enable (c : Cursor) : Cursor :=
  { c with enabled := true }

/-- Method `Cursor.prototype.disable`. -/
def Cursor.disable (c : Cursor) : Cursor :=
  { c with enabled := false }

/-- Method `Cursor.prototype.move`: vertical axis first (`y < 0` → moveUp(-y),
`y > 0` → moveDown(y)), then horizontal (`x > 0` → forward(x),
`x < 0` → backward(-x)); a component that is zero (or `NaN`/`undefined`)
triggers nothing. -/
def Cursor.move (K : Consts) (x y : JsNum) (c : Cursor) : Cursor :=
  let c1 :=
    if y.lt0 then movementMethod K.csi K.moveUp [y.neg] c
    else if y.gt0 then movementMethod K.csi K.moveDown [y] c
    else c
  if x.gt0 then movementMethod K.csi K.forward [x] c1
  else if x.lt0 then movementMethod K.csi K.backward [x.neg] c1
  else c1

/-- Method `Cursor.prototype.beep`: `_write(consts.beep)` (no prefix). -/
def Cursor.beep (K : Consts) (c : Cursor) : Cursor :=
  c._write K.beep

/-- Dynamic method lookup `this[methodName]` restricted to the generated
prototype methods.  The `movements` table is iterated first and the
`actions` table after it, so on a name collision the action assignment
wins; `args` is the argument list the resolved method is invoked with
(ignored by action methods).  `none` means the property is absent, in which
case the JavaScript call sites either skip the call or crash. -/
def callMethod (K : Consts) (name : String) (args : List JsNum) (c : Cursor) :
    Option Cursor :=
  match K.actions.find? (fun p => p.1 == name) with
  | some p => some (actionMethod K.csi p.2 c)
  | none =>
    match K.movements.find? (fun p => p.1 == name) with
    | some p => some (movementMethod K.csi p.2 args c)
    | none => none

/-- JavaScript string coercion of an argument that is either a string or
`undefined` (as used in `'' + type` and in the error messages). -/
def jsStr : Option String → String
  | none => "undefined"
  | some s => s

/-- Emit an `error` event on the controller.  Modelled from the spec: the
event-subscription machinery is an external collaborator; the notification
is recorded in `errorEvents`. -/
def Cursor.emitError (c : Cursor) (msg : String) : Cursor :=
  { c with errorEvents := c.errorEvents ++ [msg] }

/-- Method `Cursor.prototype.erase`: `'$'` → `eraseRight()`, `'^'` → `eraseLeft()`,
other truthy `t` → the method named `'erase' + ucFirst('' + t)` when it
exists; otherwise emits an `error` event `Unknown erase type: <type>` and
returns `this`.  The result is `none` exactly when the `'$'`/`'^'` branch
calls a method absent from the table (a TypeError in JavaScript). -/
def Cursor.erase (K : Consts) (ty : Option String) (c : Cursor) : Option Cursor :=
  let failed := some (c.emitError ("Unknown erase type: " ++ jsStr ty))
  match ty with
  | some t =>
    if t = "" then failed
    else if t = "$" then callMethod K "eraseRight" [] c
    else if t = "^" then callMethod K "eraseLeft" [] c
    else
      match callMethod K ("erase" ++ ucFirst t) [] c with
      | some c' => some c'
      | none => failed
  | none => failed

/-- Method `Cursor.prototype.delete`: truthy `t` → the method named
`'delete' + ucFirst('' + t)` when it exists, invoked with the single
argument `n`; otherwise emits `Unknown delete type: <type>` and returns
`this`. -/
def Cursor.delete (K : Consts) (ty : Option String) (n : JsNum) (c : Cursor) : Cursor :=
  let failed := c.emitError ("Unknown delete type: " ++ jsStr ty)
  match ty with
  | some t =>
    if t = "" then failed
    else
      match callMethod K ("delete" ++ ucFirst t) [n] c with
      | some c' => c'
      | none => failed
  | none => failed

/-- The `mode` argument of `insert`: a boolean or a string. -/
inductive InsertMode where
  | bool (b : Bool)
  | str (s : String)
deriving DecidableEq, Repr

/-- JavaScript string coercion of an `InsertMode` (for the error message). -/
def insertModeStr : InsertMode → String
  | .bool true => "true"
  | .bool false => "false"
  | .str s => s

/-- The statement `n = n || 1` of `insert`: a falsy count (`undefined` or
`0`) becomes 1. -/
def orOne : Option ℤ → ℤ
  | none => 1
  | some 0 => 1
  | some k => k

/-- Method `Cursor.prototype.insert`: `n = n || 1` (so `undefined` and `0` become
1); `mode === true` → `_write(prefix + '4h')`; `mode === false` →
`_write(prefix + 'l')`; `'line'` → `_write(prefix + +n + 'L')`; `'char'` →
`_write(prefix + +n + '@')`; anything else emits
`Unknown insert type: <mode>`.  Counts are modelled as integers (`+n` is
the identity there). -/
def Cursor.insert (K : Consts) (mode : InsertMode) (n : Option ℤ) (c : Cursor) : Cursor :=
  let m : ℤ := orOne n
  match mode with
  | .bool true => c._write (K.csi ++ "4h")
  | .bool false => c._write (K.csi ++ "l")
  | .str s =>
    if s = "line" then c._write (K.csi ++ toString m ++ "L")
    else if s = "char" then c._write (K.csi ++ toString m ++ "@")
    else c.emitError ("Unknown insert type: " ++ s)

/-- Method `Cursor.prototype.save`: when `enabled`, writes
`codes.saveCursor`/`codes.savePosition` (selected by `withAttributes`)
through the ordinary `write` path — not through `_write`. -/
def Cursor.save (K : Consts) (withAttributes : Bool) (c : Cursor) : Cursor :=
  if c.enabled then
    c.write [if withAttributes then K.saveCursor else K.savePosition]
  else c

/-- Method `Cursor.prototype.restore`: when `enabled`, writes
`codes.restoreCursor`/`codes.restorePosition` through the ordinary `write`
path. -/
def Cursor.restore (K : Consts) (withAttributes : Bool) (c : Cursor) : Cursor :=
  if c.enabled then
    c.write [if withAttributes then K.restoreCursor else K.restorePosition]
  else c

/-- Whether a stream argument satisfies the minimal write-capability
contract that construction validates. -/
def StreamArg.writeCapable : StreamArg → Bool
  | .notObject => false
  | .object hasWrite _ => hasWrite

/-- The recognized constructor options; `none` models an absent property. -/
structure CursorOptions where
  enabled : Option Bool
  buffering : Option Bool
deriving DecidableEq, Repr

/-- JavaScript `!!` coercion of a boolean-or-`undefined` value. -/
def boolCoerce : Option Bool → Bool
  | none => false
  | some b => b

/-- The `Cursor` constructor: throws `A valid Stream instance must be
passed in.` unless the stream is an object exposing a `write` function;
otherwise `enabled` is `options && options.enabled`, falling back to
`stream.isTTY` when that is `undefined`, then `!!`-coerced; `buffering` is
`!!(options && options.buffering)`; the buffer starts empty, the attribute
flags false, and the newline counter at zero. -/
def cursorNew (s : StreamArg) (opts : Option CursorOptions) : Except String Cursor :=
  match s with
  | .notObject => .error "A valid Stream instance must be passed in."
  | .object hasWrite isTTY =>
    if hasWrite then
      let en : Bool := match opts with
        | none => boolCoerce isTTY
        | some o => match o.enabled with
          | none => boolCoerce isTTY
          | some b => b
      .ok
        { stream := .object hasWrite isTTY
          streamWrites := []
          dataEvents := []
          errorEvents := []
          enabled := en
          buffering := match opts with
            | none => false
            | some o => boolCoerce o.buffering
          _buffer := []
          bold := false
          italic := false
          inverse := false
          underline := false
          newlines := 0 }
    else .error "A valid Stream instance must be passed in."

/-- One public operation on the controller, for the reachability notion:
every method of the public surface, with its arguments. -/
inductive Op where
  | enable
  | disable
  | rawWrite (args : List String)
  | bufferOn
  | flush
  | movement (code : String) (args : List JsNum)
  | action (code : String)
  | move (x y : JsNum)
  | beep
  | erase (ty : Option String)
  | del (ty : Option String) (n : JsNum)
  | insert (mode : InsertMode) (n : Option ℤ)
  | save (w : Bool)
  | restore (w : Bool)

/-- Run one operation.  A `flush` that throws leaves the controller in the
state it had at the throw; an `erase` whose `'$'`/`'^'` branch hits an
absent method (a TypeError) likewise leaves the state unchanged, since the
crash happens before any mutation. -/
def runOp (K : Consts) (c : Cursor) : Op → Cursor
  | .enable => c.enable
  | .disable => c.disable
  | .rawWrite args => c.write args
  | .bufferOn => c.buffer
  | .flush => c.flush.state
  | .movement code args => movementMethod K.csi code args c
  | .action code => actionMethod K.csi code c
  | .move x y => c.move K x y
  | .beep => c.beep K
  | .erase ty => (c.erase K ty).getD c
  | .del ty n => c.delete K ty n
  | .insert mode n => c.insert K mode n
  | .save w => c.save K w
  | .restore w => c.restore K w

/-- Run a sequence of public operations. -/
def runOps (K : Consts) (c : Cursor) (ops : List Op) : Cursor :=
  ops.foldl (runOp K) c

/-- Whether the generated-method lookup `this[name]` finds a method
(in either table). -/
def hasMethod (K : Consts) (name : String) : Bool :=
  (K.actions.find? (fun p => p.1 == name)).isSome ||
    (K.movements.find? (fun p => p.1 == name)).isSome

/-- The `type` arguments on which `erase` reaches its error branch:
falsy (`undefined` or the empty string), or a truthy string other than
`'$'`/`'^'` whose derived method name is absent. -/
def unknownEraseTy (K : Consts) (ty : Option String) : Bool :=
  match ty with
  | none => true
  | some t =>
    t = "" || (t ≠ "$" && t ≠ "^" && !(hasMethod K ("erase" ++ ucFirst t)))

/-- The `type` arguments on which `delete` reaches its error branch. -/
def unknownDeleteTy (K : Consts) (ty : Option String) : Bool :=
  match ty with
  | none => true
  | some t => t = "" || !(hasMethod K ("delete" ++ ucFirst t))

/-- The buffer/buffering invariant of the spec, strengthened with the fact
that makes it inductive: every queued entry holds exactly one payload
component. -/
def BufInv (c : Cursor) : Prop :=
  (c._buffer ≠ [] → c.buffering = true) ∧ ∀ a ∈ c._buffer, a.length = 1

/-- Operations that only ever perform single-argument raw writes. -/
def singleArgWrites : Op → Prop
  | .rawWrite args => args.length = 1
  | _ => True

/-- A sample constant table, used to instantiate the parameterized theorems
on concrete inputs (the real `lib/consts.js` values are opaque external
constants). -/
def K0 : Consts :=
  { csi := "\x1b["
    movements := [("moveUp", "A"), ("moveDown", "B"), ("forward", "C"), ("backward", "D"),
      ("deleteLine", "M"), ("deleteChar", "P")]
    actions := [("eraseRight", "K"), ("eraseLeft", "1K"), ("eraseLine", "2K"),
      ("eraseScreen", "2J")]
    moveUp := "A", moveDown := "B", forward := "C", backward := "D"
    beep := "\x07"
    saveCursor := "\x1b7", savePosition := "\x1b[s"
    restoreCursor := "\x1b8", restorePosition := "\x1b[u" }

/-- A freshly constructed, enabled, non-buffering controller. -/
def c0 : Cursor :=
  { stream := .object true (some true)
    streamWrites := [], dataEvents := [], errorEvents := []
    enabled := true, buffering := false, _buffer := []
    bold := false, italic := false, inverse := false, underline := false, newlines := 0 }

/-- A freshly constructed controller with `enabled = false`. -/
def cdis : Cursor :=
  { c0 with enabled := false }

/-- A freshly constructed controller with `enabled = true` and
`buffering = true` (as produced by `cursorNew` with
`{enabled: true, buffering: true}`). -/
def cbuf : Cursor :=
  { c0 with buffering := true }

theorem write_buffering {c : Cursor} (h : c.buffering = true) (args : List String) :
    c.write args = { c with _buffer := c._buffer ++ [args] } := by
  simp [Cursor.write, h]

theorem write_through {c : Cursor} (h : c.buffering = false) (args : List String) :
    c.write args =
      { c with
        streamWrites := c.streamWrites ++ [args]
        dataEvents := c.dataEvents ++ [args.headD ""]
        newlines := c.newlines + countNewlines (args.headD "") } := by
  simp [Cursor.write, h]

theorem write_enabled_eq (c : Cursor) (args : List String) :
    (c.write args).enabled = c.enabled := by
  by_cases h : c.buffering <;> simp [Cursor.write, h]

theorem write_buffering_eq (c : Cursor) (args : List String) :
    (c.write args).buffering = c.buffering := by
  by_cases h : c.buffering <;> simp [Cursor.write, h]

theorem _write_disabled {c : Cursor} (h : c.enabled = false) (data : String) :
    c._write data = c := by
  simp [Cursor._write, h]

theorem _write_enabled {c : Cursor} (h : c.enabled = true) (data : String) :
    c._write data = c.write [data] := by
  simp [Cursor._write, h]

theorem _write_flags (c : Cursor) (data : String) :
    (c._write data).enabled = c.enabled ∧ (c._write data).buffering = c.buffering := by
  by_cases h : c.enabled <;>
    simp [Cursor._write, h, write_enabled_eq, write_buffering_eq]

theorem _write_emits {c : Cursor} (h1 : c.enabled = true) (h2 : c.buffering = false)
    (data : String) :
    (c._write data).streamWrites = c.streamWrites ++ [[data]] := by
  rw [_write_enabled h1, write_through h2]

theorem movementMethod_nil (csi code : String) (c : Cursor) :
    movementMethod csi code [] c = c._write (csi ++ code) := by
  simp [movementMethod]

theorem movementMethod_cons (csi code : String) (v : JsNum) (args : List JsNum)
    (c : Cursor) :
    movementMethod csi code (v :: args) c =
      c._write (csi ++
        (String.intercalate ";" ((v :: args).map (fun a => toString (toAxis a))) ++ code)) := by
  simp [movementMethod]

theorem movementMethod_single (csi code : String) (v : JsNum) (c : Cursor) :
    movementMethod csi code [v] c = c._write (csi ++ (toString (toAxis v) ++ code)) := by
  simp [movementMethod, String.intercalate, String.intercalate.go]

/-- C6: axis normalization maps `undefined`, `NaN` and the infinities to 1
and every finite input to its floor (so `toAxis(3.7) = 3` and
`toAxis(-3.7) = -4`, flooring rather than truncating toward zero); a
movement method called with arguments joins the normalized values with
`';'` immediately before its code suffix, and a call with no arguments
emits `prefix + code` alone. -/
theorem claim6_axis_normalization :
    toAxis .undef = 1 ∧ toAxis .nan = 1 ∧ toAxis .inf = 1 ∧ toAxis .ninf = 1 ∧
    toAxis (.num 3.7) = 3 ∧ toAxis (.num (-3.7)) = -4 ∧
    (∀ q : ℚ, toAxis (.num q) = ⌊q⌋) ∧
    (∀ csi code c v args, movementMethod csi code (v :: args) c =
      c._write (csi ++
        (String.intercalate ";" ((v :: args).map (fun a => toString (toAxis a))) ++ code))) ∧
    (∀ csi code c, movementMethod csi code [] c = c._write (csi ++ code)) :=
  ⟨rfl, rfl, rfl, rfl,
    by show ⌊(3.7 : ℚ)⌋ = 3; norm_num,
    by show ⌊(-3.7 : ℚ)⌋ = -4; norm_num,
    fun _ => rfl,
    fun csi code c v args => movementMethod_cons csi code v args c,
    fun csi code c => movementMethod_nil csi code c⟩

/-- C10: `enable` and `disable` set only the `enabled` flag (to `true` and
`false` respectively), leaving the stream reference, `buffering`, the
buffer, `newlines`, the attribute flags and the event histories unchanged,
and each returns the controller itself. -/
theorem claim10_enable_disable_frame (c : Cursor) :
    c.enable = { c with enabled := true } ∧
    c.disable = { c with enabled := false } ∧
    (c.enable).enabled = true ∧ (c.disable).enabled = false ∧
    (c.enable).stream = c.stream ∧ (c.disable).stream = c.stream ∧
    (c.enable).buffering = c.buffering ∧ (c.disable).buffering = c.buffering ∧
    (c.enable)._buffer = c._buffer ∧ (c.disable)._buffer = c._buffer ∧
    (c.enable).newlines = c.newlines ∧ (c.disable).newlines = c.newlines ∧
    (c.enable).bold = c.bold ∧ (c.disable).bold = c.bold ∧
    (c.enable).italic = c.italic ∧ (c.disable).italic = c.italic ∧
    (c.enable).inverse = c.inverse ∧ (c.disable).inverse = c.inverse ∧
    (c.enable).underline = c.underline ∧ (c.disable).underline = c.underline ∧
    (c.enable).streamWrites = c.streamWrites ∧
    (c.disable).streamWrites = c.streamWrites ∧
    (c.enable).dataEvents = c.dataEvents ∧ (c.disable).dataEvents = c.dataEvents ∧
    (c.enable).errorEvents = c.errorEvents ∧
    (c.disable).errorEvents = c.errorEvents := by
  simp [Cursor.enable, Cursor.disable]

/-- C1: on a controller with `enabled = false`, every gated escape-emitting
method — any generated movement or action method, `beep`, and `insert`
with a known mode — leaves the state unchanged, so nothing reaches the
stream through the gated `_write` path; the raw `write` path remains
usable (a non-buffering raw write still reaches the stream). -/
theorem claim1_disabled_gate (K : Consts) (c : Cursor) (h : c.enabled = false) :
    (∀ code args, movementMethod K.csi code args c = c) ∧
    (∀ code, actionMethod K.csi code c = c) ∧
    c.beep K = c ∧
    (∀ n, c.insert K (.bool true) n = c ∧ c.insert K (.bool false) n = c ∧
      c.insert K (.str "line") n = c ∧ c.insert K (.str "char") n = c) ∧
    (c.buffering = false →
      ∀ data, (c.write [data]).streamWrites = c.streamWrites ++ [[data]]) := by
  have hw : ∀ d, c._write d = c := fun d => _write_disabled h d
  refine ⟨?_, ?_, hw _, ?_, ?_⟩
  · intro code args
    cases args with
    | nil => rw [movementMethod_nil, hw]
    | cons v rest => rw [movementMethod_cons, hw]
  · intro code
    exact hw _
  · intro n
    exact ⟨hw _, hw _, by simp [Cursor.insert, hw], by simp [Cursor.insert, hw]⟩
  · intro hb data
    rw [write_through hb]

theorem claim1_witness :
    movementMethod K0.csi "A" [JsNum.undef] cdis = cdis ∧
    actionMethod K0.csi "2J" cdis = cdis ∧
    Cursor.beep K0 cdis = cdis ∧
    Cursor.insert K0 (.str "line") (some 3) cdis = cdis ∧
    (cdis.write ["hi"]).streamWrites = cdis.streamWrites ++ [["hi"]] :=
  ⟨(claim1_disabled_gate K0 cdis rfl).1 "A" [JsNum.undef],
    (claim1_disabled_gate K0 cdis rfl).2.1 "2J",
    (claim1_disabled_gate K0 cdis rfl).2.2.1,
    ((claim1_disabled_gate K0 cdis rfl).2.2.2.1 (some 3)).2.2.1,
    (claim1_disabled_gate K0 cdis rfl).2.2.2.2 rfl "hi"⟩

/-- C9: construction fails with the invalid-argument error exactly when the
stream argument does not expose a write operation; when it succeeds and
the options do not supply `enabled`, the flag defaults to the boolean
coercion of the stream's `isTTY`. -/
theorem claim9_construction :
    (∀ s opts, (∃ c, cursorNew s opts = .ok c) ↔ s.writeCapable = true) ∧
    (∀ s opts, s.writeCapable = false →
      cursorNew s opts = .error "A valid Stream instance must be passed in.") ∧
    (∀ tty, (cursorNew (.object true tty) none).map Cursor.enabled =
      .ok (boolCoerce tty)) ∧
    (∀ tty b, (cursorNew (.object true tty) (some ⟨none, b⟩)).map Cursor.enabled =
      .ok (boolCoerce tty)) := by
  refine ⟨?_, ?_, fun tty => rfl, fun tty b => rfl⟩
  · intro s opts
    cases s with
    | notObject => simp [cursorNew, StreamArg.writeCapable]
    | object hw tty => cases hw <;> simp [cursorNew, StreamArg.writeCapable]
  · intro s opts hs
    cases s with
    | notObject => rfl
    | object hw tty =>
      cases hw with
      | false => rfl
      | true => exact absurd hs (by simp [StreamArg.writeCapable])

theorem claim9_witness :
    cursorNew .notObject none = .error "A valid Stream instance must be passed in." ∧
    (cursorNew (.object false none) (some ⟨some true, some true⟩)).map Cursor.enabled =
      .error "A valid Stream instance must be passed in." ∧
    (cursorNew (.object true (some true)) none).map Cursor.enabled = .ok true :=
  ⟨claim9_construction.2.1 .notObject none rfl,
    by rw [claim9_construction.2.1 (.object false none) (some ⟨some true, some true⟩) rfl]; rfl,
    claim9_construction.2.2.1 (some true)⟩

/-- C5 counterexample: on an enabled controller that is buffering, `save`
does not write its escape sequence directly to the stream — the stream
receives nothing and the sequence is queued in the buffer instead,
refuting "bypass the buffering mechanism entirely". -/
theorem claim5_counterexample :
    cbuf.enabled = true ∧ cbuf.buffering = true ∧
    (Cursor.save K0 true cbuf).streamWrites = cbuf.streamWrites ∧
    (Cursor.save K0 true cbuf)._buffer = cbuf._buffer ++ [[K0.saveCursor]] ∧
    (Cursor.restore K0 true cbuf).streamWrites = cbuf.streamWrites ∧
    (Cursor.restore K0 true cbuf)._buffer = cbuf._buffer ++ [[K0.restoreCursor]] := by
  decide

/-- C5 amended: `save(withAttributes)` and `restore(withAttributes)` act
only when `enabled` is true and select the with-attributes code variant
when `withAttributes` is truthy, the position-only variant otherwise; they
bypass only the `_write` gating helper (the enabled check is duplicated),
not the buffering mechanism: they go through the ordinary `write` path, so
while `buffering` is true the selected sequence is queued in the buffer,
and it reaches the stream directly only when `buffering` is false. -/
theorem claim5_amended (K : Consts) (c : Cursor) (w : Bool) :
    (c.enabled = false → c.save K w = c ∧ c.restore K w = c) ∧
    (c.enabled = true →
      c.save K w = c.write [if w then K.saveCursor else K.savePosition] ∧
      c.restore K w = c.write [if w then K.restoreCursor else K.restorePosition]) ∧
    (c.enabled = true → c.buffering = false →
      (c.save K w).streamWrites =
        c.streamWrites ++ [[if w then K.saveCursor else K.savePosition]] ∧
      (c.restore K w).streamWrites =
        c.streamWrites ++ [[if w then K.restoreCursor else K.restorePosition]]) ∧
    (c.enabled = true → c.buffering = true →
      (c.save K w).streamWrites = c.streamWrites ∧
      (c.save K w)._buffer =
        c._buffer ++ [[if w then K.saveCursor else K.savePosition]] ∧
      (c.restore K w).streamWrites = c.streamWrites ∧
      (c.restore K w)._buffer =
        c._buffer ++ [[if w then K.restoreCursor else K.restorePosition]]) := by
  have hs : c.enabled = true →
      c.save K w = c.write [if w then K.saveCursor else K.savePosition] :=
    fun he => by simp [Cursor.save, he]
  have hr : c.enabled = true →
      c.restore K w = c.write [if w then K.restoreCursor else K.restorePosition] :=
    fun he => by simp [Cursor.restore, he]
  refine ⟨fun he => ?_, fun he => ⟨hs he, hr he⟩, fun he hb => ?_, fun he hb => ?_⟩
  · simp [Cursor.save, Cursor.restore, he]
  · rw [hs he, hr he, write_through hb, write_through hb]
    exact ⟨rfl, rfl⟩
  · rw [hs he, hr he, write_buffering hb, write_buffering hb]
    exact ⟨rfl, rfl, rfl, rfl⟩

theorem claim5_witness :
    Cursor.save K0 true c0 = c0.write [K0.saveCursor] ∧
    (Cursor.save K0 false c0).streamWrites = c0.streamWrites ++ [[K0.savePosition]] ∧
    (Cursor.save K0 true cbuf)._buffer = cbuf._buffer ++ [[K0.saveCursor]] :=
  ⟨((claim5_amended K0 c0 true).2.1 rfl).1,
    ((claim5_amended K0 c0 false).2.2.1 rfl rfl).1,
    ((claim5_amended K0 cbuf true).2.2.2 rfl rfl).2.1⟩

/-- C2: starting from a non-buffering controller (empty queue),
`buffer(); write('a'); write('b'); flush()` delivers exactly one write call
to the stream, with payload `'ab'`; after `flush` the controller is not
buffering and the queue is empty; and `flush` on an empty queue succeeds,
performing one write of the empty string. -/
theorem claim2_buffer_flush (c : Cursor) (h1 : c.buffering = false)
    (h2 : c._buffer = []) :
    (((c.buffer.write ["a"]).write ["b"]).flush).threw = false ∧
    (((c.buffer.write ["a"]).write ["b"]).flush).state.streamWrites =
      c.streamWrites ++ [["ab"]] ∧
    (((c.buffer.write ["a"]).write ["b"]).flush).state.buffering = false ∧
    (((c.buffer.write ["a"]).write ["b"]).flush).state._buffer = [] ∧
    (c.flush).threw = false ∧
    (c.flush).state.streamWrites = c.streamWrites ++ [[""]] ∧
    (c.flush).state.buffering = false ∧
    (c.flush).state._buffer = [] := by
  rcases c with ⟨st, sw, de, ee, en, bu, bf, bo, it, iv, un, nl⟩
  dsimp only at h1 h2
  subst h1
  subst h2
  exact ⟨rfl, rfl, rfl, rfl, rfl, rfl, rfl, rfl⟩

theorem claim2_witness :
    (((c0.buffer.write ["a"]).write ["b"]).flush).threw = false ∧
    (((c0.buffer.write ["a"]).write ["b"]).flush).state.streamWrites =
      c0.streamWrites ++ [["ab"]] ∧
    (((c0.buffer.write ["a"]).write ["b"]).flush).state.buffering = false ∧
    (((c0.buffer.write ["a"]).write ["b"]).flush).state._buffer = [] :=
  ⟨(claim2_buffer_flush c0 rfl rfl).1, (claim2_buffer_flush c0 rfl rfl).2.1,
    (claim2_buffer_flush c0 rfl rfl).2.2.1, (claim2_buffer_flush c0 rfl rfl).2.2.2.1⟩

theorem bufInv_write {c : Cursor} {args : List String} (hl : args.length = 1)
    (h : BufInv c) : BufInv (c.write args) := by
  by_cases hb : c.buffering = true
  · rw [write_buffering hb]
    refine ⟨fun _ => hb, fun a ha => ?_⟩
    rcases List.mem_append.mp ha with ha' | ha'
    · exact h.2 a ha'
    · rw [List.mem_singleton.mp ha']
      exact hl
  · rw [write_through (by simpa using hb)]
    exact h

theorem bufInv__write {c : Cursor} (data : String) (h : BufInv c) :
    BufInv (c._write data) := by
  by_cases he : c.enabled = true
  · rw [_write_enabled he]
    exact bufInv_write rfl h
  · rw [_write_disabled (by simpa using he)]
    exact h

theorem bufInv_emitError {c : Cursor} (msg : String) (h : BufInv c) :
    BufInv (c.emitError msg) :=
  h

theorem flush_ok {c : Cursor}
    (hall : c._buffer.all (fun args => args.length == 1) = true) :
    (c.flush).threw = false ∧ (c.flush).state._buffer = [] ∧
      (c.flush).state.buffering = false := by
  unfold Cursor.flush
  rw [if_pos (by simpa using hall)]
  exact ⟨rfl, by rw [write_through rfl], by rw [write_through rfl]⟩

theorem flush_threw_state (c : Cursor) (h : (c.flush).threw = true) :
    (c.flush).state = { c with buffering := false } := by
  unfold Cursor.flush at *
  by_cases hall : ({ c with buffering := false } : Cursor)._buffer.all
      (fun args => args.length == 1) = true
  · rw [if_pos hall] at h
    exact absurd h (by simp)
  · rw [if_neg hall]

theorem bufInv_flush {c : Cursor} (h : BufInv c) :
    (c.flush).threw = false ∧ (c.flush).state._buffer = [] ∧
      (c.flush).state.buffering = false ∧ BufInv (c.flush).state := by
  have hall : c._buffer.all (fun args => args.length == 1) = true := by
    rw [List.all_eq_true]
    intro a ha
    exact beq_iff_eq.mpr (h.2 a ha)
  obtain ⟨ht, hb, hf⟩ := flush_ok hall
  exact ⟨ht, hb, hf, fun hne => absurd hb hne, fun a ha => by rw [hb] at ha; cases ha⟩

theorem bufInv_callMethod {K : Consts} {name : String} {args : List JsNum}
    {c c' : Cursor} (hc : callMethod K name args c = some c') (h : BufInv c) :
    BufInv c' := by
  unfold callMethod at hc
  rcases ha : K.actions.find? (fun p => p.1 == name) with _ | p
  · rw [ha] at hc
    rcases hm : K.movements.find? (fun p => p.1 == name) with _ | p
    · rw [hm] at hc
      cases hc
    · rw [hm] at hc
      rw [← Option.some_inj.mp hc]
      unfold movementMethod
      exact bufInv__write _ h
  · rw [ha] at hc
    rw [← Option.some_inj.mp hc]
    exact bufInv__write _ h

theorem bufInv_erase {K : Consts} {ty : Option String} {c : Cursor}
    (h : BufInv c) : BufInv ((c.erase K ty).getD c) := by
  rcases ty with _ | t
  · exact bufInv_emitError _ h
  · simp only [Cursor.erase]
    split
    · exact bufInv_emitError _ h
    split
    · rcases hc : callMethod K "eraseRight" [] c with _ | c'
      · exact h
      · exact bufInv_callMethod hc h
    split
    · rcases hc : callMethod K "eraseLeft" [] c with _ | c'
      · exact h
      · exact bufInv_callMethod hc h
    split
    · next c' hc => exact bufInv_callMethod hc h
    · exact bufInv_emitError _ h

theorem bufInv_delete {K : Consts} {ty : Option String} {n : JsNum} {c : Cursor}
    (h : BufInv c) : BufInv (c.delete K ty n) := by
  rcases ty with _ | t
  · exact bufInv_emitError _ h
  · simp only [Cursor.delete]
    split
    · exact bufInv_emitError _ h
    split
    · next c' hc => exact bufInv_callMethod hc h
    · exact bufInv_emitError _ h

theorem bufInv_insert {K : Consts} {mode : InsertMode} {n : Option ℤ} {c : Cursor}
    (h : BufInv c) : BufInv (c.insert K mode n) := by
  rcases mode with b | s
  · cases b
    · exact bufInv__write _ h
    · exact bufInv__write _ h
  · simp only [Cursor.insert]
    split
    · exact bufInv__write _ h
    split
    · exact bufInv__write _ h
    · exact bufInv_emitError _ h

theorem bufInv_hmove (K : Consts) (x : JsNum) {c1 : Cursor} (h1 : BufInv c1) :
    BufInv (if x.gt0 then movementMethod K.csi K.forward [x] c1
      else if x.lt0 then movementMethod K.csi K.backward [x.neg] c1 else c1) := by
  split
  · exact bufInv__write _ h1
  split
  · exact bufInv__write _ h1
  · exact h1

theorem bufInv_move {K : Consts} {x y : JsNum} {c : Cursor} (h : BufInv c) :
    BufInv (c.move K x y) := by
  have h1 : BufInv (if y.lt0 then movementMethod K.csi K.moveUp [y.neg] c
      else if y.gt0 then movementMethod K.csi K.moveDown [y] c else c) := by
    split
    · exact bufInv__write _ h
    split
    · exact bufInv__write _ h
    · exact h
  exact bufInv_hmove K x h1

theorem bufInv_save {K : Consts} {w : Bool} {c : Cursor} (h : BufInv c) :
    BufInv (c.save K w) := by
  unfold Cursor.save
  split
  · exact bufInv_write rfl h
  · exact h

theorem bufInv_restore {K : Consts} {w : Bool} {c : Cursor} (h : BufInv c) :
    BufInv (c.restore K w) := by
  unfold Cursor.restore
  split
  · exact bufInv_write rfl h
  · exact h

theorem bufInv_runOp (K : Consts) {c : Cursor} (op : Op) (h : BufInv c)
    (hop : singleArgWrites op) : BufInv (runOp K c op) := by
  cases op with
  | enable => exact h
  | disable => exact h
  | rawWrite args => exact bufInv_write hop h
  | bufferOn => exact ⟨fun _ => rfl, h.2⟩
  | flush => exact (bufInv_flush h).2.2.2
  | movement code args => exact bufInv__write _ h
  | action code => exact bufInv__write _ h
  | move x y => exact bufInv_move h
  | beep => exact bufInv__write _ h
  | erase ty => exact bufInv_erase h
  | del ty n => exact bufInv_delete h
  | insert mode n => exact bufInv_insert h
  | save w => exact bufInv_save h
  | restore w => exact bufInv_restore h

theorem bufInv_runOps (K : Consts) (ops : List Op) :
    ∀ c : Cursor, BufInv c → (∀ op ∈ ops, singleArgWrites op) →
      BufInv (runOps K c ops) := by
  induction ops with
  | nil => exact fun c hc _ => hc
  | cons op rest ih =>
    intro c hc hops
    exact ih (runOp K c op) (bufInv_runOp K op hc (hops op (by simp)))
      (fun o ho => hops o (by simp [ho]))

/-- C3 counterexample: the invariant "the buffer is non-empty only while
`buffering` is true" fails in a reachable state, and a failed flush does
leave a partial side effect.  From a freshly constructed controller with
`{enabled: true, buffering: true}`, one public raw write with two payload
components followed by `flush()` throws, after which `buffering` is false
while the buffer still holds the queued entry. -/
theorem claim3_counterexample :
    cursorNew (.object true (some true)) (some ⟨some true, some true⟩) = .ok cbuf ∧
    ((cbuf.write ["a", "utf8"]).flush).threw = true ∧
    (runOps K0 cbuf [.rawWrite ["a", "utf8"], .flush]).buffering = false ∧
    (runOps K0 cbuf [.rawWrite ["a", "utf8"], .flush])._buffer = [["a", "utf8"]] := by
  refine ⟨rfl, ?_, ?_, ?_⟩ <;> decide

/-- C3 amended: in every state reachable through public operations whose
raw writes carry exactly one payload component, the buffer is non-empty
only while `buffering` is true (and every queued entry has one component);
under that invariant `flush` never throws and drains the buffer fully,
restoring `buffering` to false.  When `flush` does throw (some queued
entry lacking exactly one component, reachable only via multi-argument
raw writes while buffering), its one partial side effect is exactly that
`buffering` has been reset to false while the buffer retains all queued
entries. -/
theorem claim3_amended (K : Consts) (c : Cursor) (h : BufInv c) :
    (∀ ops, (∀ op ∈ ops, singleArgWrites op) → BufInv (runOps K c ops)) ∧
    ((c.flush).threw = false ∧ (c.flush).state._buffer = [] ∧
      (c.flush).state.buffering = false) ∧
    (∀ c' : Cursor, (c'.flush).threw = true →
      (c'.flush).state = { c' with buffering := false }) :=
  ⟨fun ops hops => bufInv_runOps K ops c h hops,
    ⟨(bufInv_flush h).1, (bufInv_flush h).2.1, (bufInv_flush h).2.2.1⟩,
    flush_threw_state⟩

theorem claim3_witness :
    BufInv (runOps K0 c0 [.bufferOn, .rawWrite ["a"], .rawWrite ["b"], .flush]) ∧
    (c0.flush).threw = false ∧ (c0.flush).state._buffer = [] :=
  ⟨(claim3_amended K0 c0 ⟨fun hne => absurd rfl hne, by simp [c0]⟩).1
      [.bufferOn, .rawWrite ["a"], .rawWrite ["b"], .flush]
      (by simp [singleArgWrites]),
    ((claim3_amended K0 c0 ⟨fun hne => absurd rfl hne, by simp [c0]⟩).2.1).1,
    ((claim3_amended K0 c0 ⟨fun hne => absurd rfl hne, by simp [c0]⟩).2.1).2.1⟩

theorem callMethod_none {K : Consts} {name : String}
    (h : hasMethod K name = false) (args : List JsNum) (c : Cursor) :
    callMethod K name args c = none := by
  unfold callMethod
  rcases ha : K.actions.find? (fun p => p.1 == name) with _ | p
  · rcases hm : K.movements.find? (fun p => p.1 == name) with _ | p
    · rw [ha, hm]
    · exfalso
      unfold hasMethod at h
      rw [ha, hm] at h
      simp at h
  · exfalso
    unfold hasMethod at h
    rw [ha] at h
    simp at h

/-- C4: for every unknown or falsy type argument, `erase(type)`,
`delete(type, n)` and `insert(mode, n)` are non-fatal soft failures: each
appends one `error` notification to the controller's own error channel,
changes nothing else (in particular writes nothing to the stream), does
not throw, and returns the controller. -/
theorem claim4_soft_failures (K : Consts) (c : Cursor) :
    (∀ ty, unknownEraseTy K ty = true →
      c.erase K ty = some { c with
        errorEvents := c.errorEvents ++ ["Unknown erase type: " ++ jsStr ty] }) ∧
    (∀ ty n, unknownDeleteTy K ty = true →
      c.delete K ty n = { c with
        errorEvents := c.errorEvents ++ ["Unknown delete type: " ++ jsStr ty] }) ∧
    (∀ s n, s ≠ "line" → s ≠ "char" →
      c.insert K (.str s) n = { c with
        errorEvents := c.errorEvents ++ ["Unknown insert type: " ++ s] }) := by
  refine ⟨?_, ?_, ?_⟩
  · intro ty hty
    rcases ty with _ | t
    · rfl
    · by_cases h0 : t = ""
      · simp only [Cursor.erase, if_pos h0]
        rfl
      · unfold unknownEraseTy at hty
        simp only [decide_eq_true_eq, Bool.or_eq_true, Bool.and_eq_true,
          Bool.not_eq_true', decide_eq_false_iff_not] at hty
        rcases hty with h0' | ⟨⟨h1, h2⟩, h3⟩
        · exact absurd h0' h0
        · simp only [Cursor.erase, if_neg h0, if_neg h1, if_neg h2,
            callMethod_none h3]
          rfl
  · intro ty n hty
    rcases ty with _ | t
    · rfl
    · by_cases h0 : t = ""
      · simp only [Cursor.delete, if_pos h0]
        rfl
      · unfold unknownDeleteTy at hty
        simp only [decide_eq_true_eq, Bool.or_eq_true, Bool.not_eq_true',
          decide_eq_false_iff_not] at hty
        rcases hty with h0' | h3
        · exact absurd h0' h0
        · simp only [Cursor.delete, if_neg h0, callMethod_none h3]
          rfl
  · intro s n hl hc
    simp only [Cursor.insert, if_neg hl, if_neg hc]
    rfl

theorem claim4_witness :
    Cursor.erase K0 (some "bogus") c0 =
      some { c0 with errorEvents := c0.errorEvents ++ ["Unknown erase type: bogus"] } ∧
    Cursor.delete K0 (some "bogus") JsNum.undef c0 =
      { c0 with errorEvents := c0.errorEvents ++ ["Unknown delete type: bogus"] } ∧
    Cursor.insert K0 (.str "nonsense") none c0 =
      { c0 with errorEvents := c0.errorEvents ++ ["Unknown insert type: nonsense"] } :=
  ⟨(claim4_soft_failures K0 c0).1 (some "bogus") (by decide),
    (claim4_soft_failures K0 c0).2.1 (some "bogus") JsNum.undef (by decide),
    (claim4_soft_failures K0 c0).2.2 "nonsense" none (by decide) (by decide)⟩

/-- C7: `move(x, y)` decomposes the offset with the vertical axis first —
a negative `y` yields a moveUp(-y) sequence, a positive `y` a moveDown(y)
sequence, then a positive `x` a forward(x) sequence and a negative `x` a
backward(-x) sequence, a zero (or non-comparing) component yielding
nothing; on an enabled non-buffering controller `move(3, -2)` emits
exactly the two sequences moveUp(2) then forward(3), in that order, and
`move(0, 0)` emits none and leaves the controller unchanged. -/
theorem claim7_move_decomposition (K : Consts) (c : Cursor)
    (h1 : c.enabled = true) (h2 : c.buffering = false) :
    (∀ x y : JsNum, (c.move K x y).streamWrites = c.streamWrites ++
      ((if y.lt0 then [[K.csi ++ (toString (toAxis y.neg) ++ K.moveUp)]]
        else if y.gt0 then [[K.csi ++ (toString (toAxis y) ++ K.moveDown)]]
        else []) ++
       (if x.gt0 then [[K.csi ++ (toString (toAxis x) ++ K.forward)]]
        else if x.lt0 then [[K.csi ++ (toString (toAxis x.neg) ++ K.backward)]]
        else []))) ∧
    (c.move K (.num 3) (.num (-2))).streamWrites =
      c.streamWrites ++ [[K.csi ++ ("2" ++ K.moveUp)], [K.csi ++ ("3" ++ K.forward)]] ∧
    c.move K (.num 0) (.num 0) = c := by
  have hgen : ∀ x y : JsNum, (c.move K x y).streamWrites = c.streamWrites ++
      ((if y.lt0 then [[K.csi ++ (toString (toAxis y.neg) ++ K.moveUp)]]
        else if y.gt0 then [[K.csi ++ (toString (toAxis y) ++ K.moveDown)]]
        else []) ++
       (if x.gt0 then [[K.csi ++ (toString (toAxis x) ++ K.forward)]]
        else if x.lt0 then [[K.csi ++ (toString (toAxis x.neg) ++ K.backward)]]
        else [])) := by
    intro x y
    simp only [Cursor.move]
    split_ifs <;>
      simp [movementMethod_single, Cursor._write, Cursor.write, h1, h2]
  refine ⟨hgen, ?_, ?_⟩
  · rw [hgen]
    have l1 : JsNum.lt0 (.num (-2)) = true := by simp [JsNum.lt0]
    have l2 : JsNum.gt0 (.num 3) = true := by simp [JsNum.gt0]
    have l3 : toAxis ((JsNum.num (-2)).neg) = 2 := by
      show ⌊(-(-2) : ℚ)⌋ = 2
      norm_num
    have l4 : toAxis (.num 3) = 3 := by
      show ⌊(3 : ℚ)⌋ = 3
      norm_num
    have t2 : toString (2 : ℤ) = "2" := rfl
    have t3 : toString (3 : ℤ) = "3" := rfl
    simp [l1, l2, l3, l4, t2, t3]
  · have z1 : JsNum.lt0 (.num 0) = false := by simp [JsNum.lt0]
    have z2 : JsNum.gt0 (.num 0) = false := by simp [JsNum.gt0]
    simp only [Cursor.move, z1, z2, Bool.false_eq_true, if_false]

theorem claim7_witness :
    (c0.move K0 (.num 3) (.num (-2))).streamWrites =
      c0.streamWrites ++ [[K0.csi ++ ("2" ++ K0.moveUp)], [K0.csi ++ ("3" ++ K0.forward)]] ∧
    c0.move K0 (.num 0) (.num 0) = c0 :=
  ⟨(claim7_move_decomposition K0 c0 rfl rfl).2.1,
    (claim7_move_decomposition K0 c0 rfl rfl).2.2⟩

/-- C8: on an enabled non-buffering controller, `insert(mode, n)` defaults
`n` to 1 when falsy, emits `prefix + '4h'` for `mode === true`,
`prefix + 'l'` for `mode === false`, `prefix + n + 'L'` for
`mode === 'line'` and `prefix + n + '@'` for `mode === 'char'` (so
`insert('line', 3)` emits `prefix + '3L'`). -/
theorem claim8_insert_modes (K : Consts) (c : Cursor)
    (h1 : c.enabled = true) (h2 : c.buffering = false) :
    (∀ n, (c.insert K (.bool true) n).streamWrites =
      c.streamWrites ++ [[K.csi ++ "4h"]]) ∧
    (∀ n, (c.insert K (.bool false) n).streamWrites =
      c.streamWrites ++ [[K.csi ++ "l"]]) ∧
    (∀ k : ℤ, k ≠ 0 → (c.insert K (.str "line") (some k)).streamWrites =
      c.streamWrites ++ [[K.csi ++ (toString k ++ "L")]]) ∧
    (∀ k : ℤ, k ≠ 0 → (c.insert K (.str "char") (some k)).streamWrites =
      c.streamWrites ++ [[K.csi ++ (toString k ++ "@")]]) ∧
    (c.insert K (.str "line") none).streamWrites =
      c.streamWrites ++ [[K.csi ++ ("1" ++ "L")]] ∧
    (c.insert K (.str "line") (some 0)).streamWrites =
      c.streamWrites ++ [[K.csi ++ ("1" ++ "L")]] ∧
    (c.insert K (.str "char") none).streamWrites =
      c.streamWrites ++ [[K.csi ++ ("1" ++ "@")]] ∧
    (c.insert K (.str "line") (some 3)).streamWrites =
      c.streamWrites ++ [[K.csi ++ ("3" ++ "L")]] := by
  have t1 : toString (1 : ℤ) = "1" := rfl
  have t3 : toString (3 : ℤ) = "3" := rfl
  have horOne : ∀ k : ℤ, k ≠ 0 → orOne (some k) = k := by
    intro k hk
    rcases k with m | m
    · cases m with
      | zero => exact absurd rfl hk
      | succ m => rfl
    · rfl
  refine ⟨?_, ?_, ?_, ?_, ?_, ?_, ?_, ?_⟩
  · intro n
    simp [Cursor.insert, Cursor._write, Cursor.write, h1, h2]
  · intro n
    simp [Cursor.insert, Cursor._write, Cursor.write, h1, h2]
  · intro k hk
    simp [Cursor.insert, Cursor._write, Cursor.write, h1, h2, horOne k hk,
      String.append_assoc]
  · intro k hk
    simp [Cursor.insert, Cursor._write, Cursor.write, h1, h2, horOne k hk,
      String.append_assoc]
  · simp [Cursor.insert, Cursor._write, Cursor.write, h1, h2, orOne, t1,
      String.append_assoc]
  · simp [Cursor.insert, Cursor._write, Cursor.write, h1, h2, orOne, t1,
      String.append_assoc]
  · simp [Cursor.insert, Cursor._write, Cursor.write, h1, h2, orOne, t1,
      String.append_assoc]
  · simp [Cursor.insert, Cursor._write, Cursor.write, h1, h2, orOne, t3,
      String.append_assoc]

theorem claim8_witness :
    (c0.insert K0 (.bool true) none).streamWrites =
      c0.streamWrites ++ [[K0.csi ++ "4h"]] ∧
    (c0.insert K0 (.str "line") (some 3)).streamWrites =
      c0.streamWrites ++ [[K0.csi ++ ("3" ++ "L")]] ∧
    (c0.insert K0 (.str "line") none).streamWrites =
      c0.streamWrites ++ [[K0.csi ++ ("1" ++ "L")]] :=
  ⟨(claim8_insert_modes K0 c0 rfl rfl).1 none,
    (claim8_insert_modes K0 c0 rfl rfl).2.2.2.2.2.2.2,
    (claim8_insert_modes K0 c0 rfl rfl).2.2.2.2.1⟩

end AnsiCursor
